import Mathlib

/-!
Verification of the BlackRoad deal-flow core (`deal_flow.py`).

Shallow embedding conventions:
* Python floats (monetary amounts, the average rating) become exact rationals `ℚ`.
* SQLite rows become Lean structures; the four tables become lists inside `DBState`,
  appended in insertion order.
* `uuid.uuid4()` and `datetime.utcnow()` become explicit `fresh_id : Nat` / `now : Nat`
  parameters supplied by the caller.
* A fallible operation returns `Except DealError (α × DBState)`; `.error` means the
  Python function raised before committing, so no state is returned (no partial write:
  every raise in the source happens before any `INSERT`/`UPDATE` on that connection).
* `ValueError(f"Deal ... not found")` is `DealError.notFound`,
  `ValueError("Rating must be between 1 and 5")` is `DealError.validation`, and the
  `sqlite3.IntegrityError` produced by a FOREIGN KEY violation (the connection runs
  `PRAGMA foreign_keys = ON`) is `DealError.fkViolation`.
-/

inductive DealStage where
  | awareness
  | first_meeting
  | deep_dive
  | term_sheet
  | due_diligence
  | closing
  | portfolio
  | passed
deriving DecidableEq

inductive DDCategory where
  | legal
  | financial
  | technical
  | market
  | team
deriving DecidableEq

inductive DDStatus where
  | not_started
  | in_progress
  | complete
  | blocked
deriving DecidableEq

/-- A row of the `deals` table / the `Deal` dataclass. -/
structure Deal where
  deal_id : Nat
  company : String
  sector : String
  raise_amount : ℚ
  valuation : ℚ
  stage : DealStage
  lead_investor : Option String
  co_investors : List String
  score : Int
  notes : String
  assigned_to : Option String
  website : String
  founder : String
  contact_email : String
  created_at : Nat
  updated_at : Nat
deriving DecidableEq

/-- A row of the `due_diligence` table / the `DueDiligence` dataclass. -/
structure DueDiligence where
  dd_id : Nat
  deal_id : Nat
  category : DDCategory
  status : DDStatus
  findings : List String
  red_flags : List String
  rating : Int
  reviewer : String
  notes : String
  created_at : Nat
  updated_at : Nat
deriving DecidableEq

/-- A row of the `stage_changes` table / the `StageChange` dataclass. -/
structure StageChange where
  change_id : Nat
  deal_id : Nat
  old_stage : DealStage
  new_stage : DealStage
  changed_by : String
  reason : String
  changed_at : Nat
deriving DecidableEq

/-- A row of the `interactions` table. -/
structure Interaction where
  interaction_id : Nat
  deal_id : Nat
  interaction_type : String
  description : String
  participants : List String
  date : String
  created_at : Nat
deriving DecidableEq

/-- The SQLite database: the four tables, rows in insertion order. -/
structure DBState where
  deals : List Deal
  due_diligence : List DueDiligence
  stage_changes : List StageChange
  interactions : List Interaction
deriving DecidableEq

/-- The freshly initialised (empty) database. -/
def initState : DBState :=
  { deals := [], due_diligence := [], stage_changes := [], interactions := [] }

inductive DealError where
  | notFound (deal_id : Nat)
  | validation (msg : String)
  | fkViolation
deriving DecidableEq

/-- `SELECT * FROM deals WHERE deal_id=?` followed by `fetchone()`. -/
def findDeal (st : DBState) (deal_id : Nat) : Option Deal :=
  st.deals.find? (fun d => d.deal_id == deal_id)

/-- `SELECT * FROM due_diligence WHERE deal_id=?` (insertion = `created_at` order). -/
def ddFor (st : DBState) (deal_id : Nat) : List DueDiligence :=
  st.due_diligence.filter (fun d => d.deal_id == deal_id)

/-- `add_deal`: builds the `Deal` dataclass (stage defaults to awareness, score to 0,
co_investors to `[]`) and INSERTs it.  The source performs no validation of any
argument; the function never raises. -/
def add_deal (st : DBState) (fresh_id now : Nat) (company sector : String)
    (raise_amount valuation : ℚ) (lead_investor assigned_to : Option String)
    (notes founder contact_email website : String) :
    Except DealError (Deal × DBState) :=
  let deal : Deal :=
    { deal_id := fresh_id, company := company, sector := sector,
      raise_amount := raise_amount, valuation := valuation,
      stage := DealStage.awareness, lead_investor := lead_investor,
      co_investors := [], score := 0, notes := notes, assigned_to := assigned_to,
      website := website, founder := founder, contact_email := contact_email,
      created_at := now, updated_at := now }
  Except.ok (deal, { st with deals := st.deals ++ [deal] })

/-- `advance_stage`: looks the deal up (ValueError "not found" if absent), UPDATEs its
stage and `updated_at`, INSERTs one stage-change row.  No check relating `new_stage`
to the current stage. -/
def advance_stage (st : DBState) (fresh_id now deal_id : Nat) (new_stage : DealStage)
    (changed_by reason : String) : Except DealError (Bool × DBState) :=
  match findDeal st deal_id with
  | none => Except.error (DealError.notFound deal_id)
  | some row =>
    let old_stage := row.stage
    let deals' := st.deals.map (fun d =>
      if d.deal_id == deal_id then { d with stage := new_stage, updated_at := now } else d)
    let sc : StageChange :=
      { change_id := fresh_id, deal_id := deal_id, old_stage := old_stage,
        new_stage := new_stage, changed_by := changed_by, reason := reason,
        changed_at := now }
    Except.ok (true, { st with deals := deals', stage_changes := st.stage_changes ++ [sc] })

/-- The `DueDiligence` dataclass value `add_due_diligence` builds: status is forced to
`complete`, `red_flags or []` replaces a missing list. -/
def mkDD (fresh_id now deal_id : Nat) (category : DDCategory) (findings : List String)
    (red_flags : Option (List String)) (rating : Int) (reviewer notes : String) :
    DueDiligence :=
  { dd_id := fresh_id, deal_id := deal_id, category := category,
    status := DDStatus.complete, findings := findings,
    red_flags := red_flags.getD [], rating := rating, reviewer := reviewer,
    notes := notes, created_at := now, updated_at := now }

/-- `add_due_diligence`: checks the deal exists, then the rating range, then INSERTs a
report with status forced to `complete` and returns it. -/
def add_due_diligence (st : DBState) (fresh_id now deal_id : Nat) (category : DDCategory)
    (findings : List String) (red_flags : Option (List String)) (rating : Int)
    (reviewer notes : String) : Except DealError (DueDiligence × DBState) :=
  match findDeal st deal_id with
  | none => Except.error (DealError.notFound deal_id)
  | some _ =>
    if 1 ≤ rating ∧ rating ≤ 5 then
      let dd := mkDD fresh_id now deal_id category findings red_flags rating reviewer notes
      Except.ok (dd, { st with due_diligence := st.due_diligence ++ [dd] })
    else Except.error (DealError.validation "Rating must be between 1 and 5")

/-- `sum(d["rating"] for d in dd_items if d["rating"] > 0)`. -/
def totalRating (items : List DueDiligence) : Int :=
  (items.filter (fun d => 0 < d.rating)).foldl (fun a d => a + d.rating) 0

/-- `sum(len(json.loads(d["red_flags"])) for d in dd_items)`. -/
def totalRedFlags (items : List DueDiligence) : Int :=
  items.foldl (fun a d => a + (d.red_flags.length : Int)) 0

/-- `len(set(d["category"] for d in dd_items))`. -/
def categoriesCovered (items : List DueDiligence) : Int :=
  ((items.map (fun d => d.category)).dedup.length : Int)

/-- Lines 266–276 of the source: the score computed from a deal's report rows.
`int(x)` on the nonnegative float `(avg_rating / 5.0) * 80` is the floor. -/
def computeScore (items : List DueDiligence) : Int :=
  let avg_rating : ℚ := (totalRating items : ℚ) / (items.length : ℚ)
  let base_score : Int := ⌊avg_rating / 5 * 80⌋
  let penalty : Int := min (totalRedFlags items * 5) 30
  let coverage_bonus : Int := min (categoriesCovered items * 4) 20
  max 0 (min 100 (base_score - penalty + coverage_bonus))

/-- `score_deal`: checks the deal exists; with zero report rows it returns 0 at once
(lines 262–264: `conn.close(); return 0` — no UPDATE is executed on that path);
otherwise computes the score, UPDATEs `score` and `updated_at`, and returns it. -/
def score_deal (st : DBState) (now deal_id : Nat) : Except DealError (Int × DBState) :=
  match findDeal st deal_id with
  | none => Except.error (DealError.notFound deal_id)
  | some _ =>
    let dd_items := ddFor st deal_id
    if dd_items.isEmpty then Except.ok (0, st)
    else
      let score := computeScore dd_items
      let deals' := st.deals.map (fun d =>
        if d.deal_id == deal_id then { d with score := score, updated_at := now } else d)
      Except.ok (score, { st with deals := deals' })

/-- `pass_deal`: looks the deal up, UPDATEs stage to `passed`, `updated_at`, and
`notes = notes || "\n[PASSED] " + reason`, then INSERTs one stage-change row. -/
def pass_deal (st : DBState) (fresh_id now deal_id : Nat) (reason passed_by : String) :
    Except DealError (Bool × DBState) :=
  match findDeal st deal_id with
  | none => Except.error (DealError.notFound deal_id)
  | some row =>
    let old_stage := row.stage
    let deals' := st.deals.map (fun d =>
      if d.deal_id == deal_id then
        { d with stage := DealStage.passed, updated_at := now,
                 notes := d.notes ++ "\n[PASSED] " ++ reason }
      else d)
    let sc : StageChange :=
      { change_id := fresh_id, deal_id := deal_id, old_stage := old_stage,
        new_stage := DealStage.passed, changed_by := passed_by, reason := reason,
        changed_at := now }
    Except.ok (true, { st with deals := deals', stage_changes := st.stage_changes ++ [sc] })

/-- `log_interaction`: INSERTs an interaction row with no prior existence check.
When the `deal_id` does not exist, the INSERT itself violates the FOREIGN KEY
(`PRAGMA foreign_keys = ON`), so sqlite raises `IntegrityError` — not the
"Deal ... not found" ValueError. -/
def log_interaction (st : DBState) (fresh_id now deal_id : Nat)
    (interaction_type description : String) (participants : Option (List String))
    (date : Option String) : Except DealError (Nat × DBState) :=
  if (findDeal st deal_id).isSome then
    let i : Interaction :=
      { interaction_id := fresh_id, deal_id := deal_id,
        interaction_type := interaction_type, description := description,
        participants := participants.getD [], date := date.getD (toString now),
        created_at := now }
    Except.ok (fresh_id, { st with interactions := st.interactions ++ [i] })
  else Except.error DealError.fkViolation

/-- One call to a state-mutating operation of the core, with all arguments. -/
inductive Op where
  | addDeal (fresh_id now : Nat) (company sector : String) (raise_amount valuation : ℚ)
      (lead_investor assigned_to : Option String) (notes founder contact_email website : String)
  | advanceStage (fresh_id now deal_id : Nat) (new_stage : DealStage) (changed_by reason : String)
  | addDD (fresh_id now deal_id : Nat) (category : DDCategory) (findings : List String)
      (red_flags : Option (List String)) (rating : Int) (reviewer notes : String)
  | scoreDeal (now deal_id : Nat)
  | passDeal (fresh_id now deal_id : Nat) (reason passed_by : String)
  | logInteraction (fresh_id now deal_id : Nat) (interaction_type description : String)
      (participants : Option (List String)) (date : Option String)

/-- The state after an operation: the new state on success, the old state when the
operation raised (every raise in the source precedes any write). -/
def afterOp {α : Type} (st : DBState) : Except DealError (α × DBState) → DBState
  | Except.ok p => p.2
  | Except.error _ => st

/-- Run one operation against the database. -/
def runOp (st : DBState) : Op → DBState
  | Op.addDeal f n c s ra v li asg nts fo ce w =>
      afterOp st (add_deal st f n c s ra v li asg nts fo ce w)
  | Op.advanceStage f n id ns cb r => afterOp st (advance_stage st f n id ns cb r)
  | Op.addDD f n id cat fnd rf rat rev nts =>
      afterOp st (add_due_diligence st f n id cat fnd rf rat rev nts)
  | Op.scoreDeal n id => afterOp st (score_deal st n id)
  | Op.passDeal f n id r pb => afterOp st (pass_deal st f n id r pb)
  | Op.logInteraction f n id ty de pa da =>
      afterOp st (log_interaction st f n id ty de pa da)

/-- The database produced by a sequence of operation calls from the empty database. -/
def reach (ops : List Op) : DBState :=
  ops.foldl runOp initState

/-- A deal as `add_deal` creates it (Scenario A of the spec's testable properties). -/
def dealA : Deal :=
  { deal_id := 1, company := "AcmeCo", sector := "SaaS", raise_amount := 5000000,
    valuation := 25000000, stage := DealStage.awareness, lead_investor := none,
    co_investors := [], score := 0, notes := "", assigned_to := none, website := "",
    founder := "", contact_email := "", created_at := 0, updated_at := 0 }

/-- A database holding exactly `dealA` and nothing else. -/
def stA : DBState :=
  { deals := [dealA], due_diligence := [], stage_changes := [], interactions := [] }

/-- Scenario B, first report: technical, rating 4, no red flags. -/
def ddTech : DueDiligence :=
  { dd_id := 2, deal_id := 1, category := DDCategory.technical, status := DDStatus.complete,
    findings := ["Good tech"], red_flags := [], rating := 4, reviewer := "CTO",
    notes := "", created_at := 1, updated_at := 1 }

/-- Scenario B, second report: market, rating 5, no red flags. -/
def ddMarket : DueDiligence :=
  { dd_id := 3, deal_id := 1, category := DDCategory.market, status := DDStatus.complete,
    findings := ["Large TAM"], red_flags := [], rating := 5, reviewer := "VP",
    notes := "", created_at := 2, updated_at := 2 }

/-- The Scenario B database: `dealA` with the two reports of ratings 4 and 5. -/
def stB : DBState :=
  { deals := [dealA], due_diligence := [ddTech, ddMarket], stage_changes := [],
    interactions := [] }

/-- `dealA` moved to the end of the pipeline, for exercising a backward transition. -/
def dealP : Deal :=
  { dealA with deal_id := 4, stage := DealStage.portfolio }

/-- A database holding only the portfolio-stage deal `dealP`. -/
def stP : DBState :=
  { deals := [dealP], due_diligence := [], stage_changes := [], interactions := [] }

/-- The Scenario B database after `score_deal` at time 9: score persisted as 80. -/
def stB80 : DBState :=
  { stB with deals := [{ dealA with score := 80, updated_at := 9 }] }

/-- A deal that has already been passed once. -/
def dealPassed : Deal :=
  { dealA with deal_id := 6, stage := DealStage.passed, notes := "\n[PASSED] old" }

/-- A database holding only the already-passed deal `dealPassed`. -/
def stPassed : DBState :=
  { deals := [dealPassed], due_diligence := [], stage_changes :=
      [{ change_id := 7, deal_id := 6, old_stage := DealStage.awareness,
         new_stage := DealStage.passed, changed_by := "system", reason := "old",
         changed_at := 1 }],
    interactions := [] }

/-- The operation call that creates `dealA` in the empty database. -/
def opA : Op :=
  Op.addDeal 1 0 "AcmeCo" "SaaS" 5000000 25000000 none none "" "" "" ""

/-- The deal record `add_deal` writes when every argument the spec calls invalid is
supplied: empty company and sector, negative raise and valuation. -/
def badDeal : Deal :=
  { deal_id := 1, company := "", sector := "", raise_amount := -5, valuation := -7,
    stage := DealStage.awareness, lead_investor := none, co_investors := [], score := 0,
    notes := "", assigned_to := none, website := "", founder := "", contact_email := "",
    created_at := 0, updated_at := 0 }

/-- Result shape of `get_deal_details`. -/
structure DealDetails where
  deal : Deal
  due_diligence : List DueDiligence
  stage_history : List StageChange
  interactions : List Interaction
deriving DecidableEq

/-- `get_deal_details`: the deal row joined with its report rows, stage history
(chronological) and interactions.  Read-only. -/
def get_deal_details (st : DBState) (deal_id : Nat) : Except DealError DealDetails :=
  match findDeal st deal_id with
  | none => Except.error (DealError.notFound deal_id)
  | some deal =>
    Except.ok
      { deal := deal,
        due_diligence := ddFor st deal_id,
        stage_history := st.stage_changes.filter (fun s => s.deal_id == deal_id),
        interactions := st.interactions.filter (fun i => i.deal_id == deal_id) }

/-! ### Helper lemmas -/

theorem find?_map_update (l : List Deal) (i : Nat) (g : Deal → Deal)
    (hg : ∀ x, (g x).deal_id = x.deal_id) (d : Deal)
    (h : l.find? (fun x => x.deal_id == i) = some d) :
    (l.map (fun x => if x.deal_id == i then g x else x)).find?
      (fun x => x.deal_id == i) = some (g d) := by
  induction l with
  | nil => simp at h
  | cons a t ih =>
    by_cases ha : (a.deal_id == i) = true
    · rw [List.find?_cons_of_pos t ha] at h
      cases h
      rw [List.map_cons, List.find?_cons_of_pos]
      · rw [if_pos ha]
      · rw [if_pos ha, hg, ha]
    · rw [List.find?_cons_of_neg t ha] at h
      rw [List.map_cons, List.find?_cons_of_neg]
      · exact ih h
      · rw [if_neg ha]
        exact ha

theorem computeScore_nonneg (items : List DueDiligence) : 0 ≤ computeScore items :=
  le_max_left 0 _

theorem computeScore_le (items : List DueDiligence) : computeScore items ≤ 100 :=
  max_le (by norm_num) (min_le_left 100 _)

/-! ### Claim theorems -/

/-- C1, counterexample: with company and sector empty and raise_amount and valuation
negative, `add_deal` does not fail — it returns `Except.ok` and writes a Deal record
into the previously empty deals table. -/
theorem add_deal_no_validation_cex :
    add_deal initState 1 0 "" "" (-5) (-7) none none "" "" "" "" =
      Except.ok (badDeal,
        { deals := [badDeal], due_diligence := [], stage_changes := [],
          interactions := [] }) :=
  rfl

/-- C1 (amended): `add_deal` validates nothing — for every input, including empty
company/sector and negative raise_amount/valuation, it succeeds, writes exactly one new
Deal record, and returns a Deal with stage = awareness and score = 0. -/
theorem add_deal_always_ok (st : DBState) (f n : Nat) (c s : String) (ra v : ℚ)
    (li asg : Option String) (nts fo ce w : String) :
    ∃ d st', add_deal st f n c s ra v li asg nts fo ce w = Except.ok (d, st') ∧
      d.stage = DealStage.awareness ∧ d.score = 0 ∧ d.company = c ∧ d.sector = s ∧
      d.raise_amount = ra ∧ d.valuation = v ∧
      st' = { st with deals := st.deals ++ [d] } :=
  ⟨_, _, rfl, rfl, rfl, rfl, rfl, rfl, rfl, rfl⟩

/-- C2, counterexample: on a deal with zero due-diligence reports, `score_deal` called
at time 7 returns 0 but leaves the database untouched — the deal's `updated_at` is
still 0, not 7, so no persist (and no `updated_at` update) happened. -/
theorem score_deal_empty_no_persist_cex :
    score_deal stA 7 1 = Except.ok (0, stA) ∧
    (afterOp stA (score_deal stA 7 1)).deals.map Deal.updated_at = [0] ∧
    (afterOp stA (score_deal stA 7 1)).deals.map Deal.updated_at ≠ [7] :=
  ⟨rfl, rfl, by decide⟩

/-- C2 (amended): for every existing deal with zero due-diligence reports, `score_deal`
returns 0 and performs no write at all: the returned state is the input state, so the
persisted score and `updated_at` are left unchanged. -/
theorem score_deal_empty (st : DBState) (now deal_id : Nat) (d : Deal)
    (hfd : findDeal st deal_id = some d) (hdd : ddFor st deal_id = []) :
    score_deal st now deal_id = Except.ok (0, st) := by
  rw [score_deal, hfd]
  rw [if_pos]
  rw [hdd]
  rfl

/-- C2 witness: the amended claim at the concrete one-deal database `stA`. -/
theorem score_deal_empty_witness :
    score_deal stA 7 1 = Except.ok (0, stA) :=
  score_deal_empty stA 7 1 dealA rfl rfl

/-- C3, counterexample: `log_interaction` on a deal_id that does not exist (the
database is empty) does not fail with the not-found error — the missing existence
check lets the INSERT reach the storage layer, which rejects it as a foreign-key
violation. -/
theorem log_interaction_not_notFound_cex :
    log_interaction initState 1 0 42 "call" "intro call" none none =
      Except.error DealError.fkViolation ∧
    DealError.fkViolation ≠ DealError.notFound 42 :=
  ⟨rfl, by decide⟩

/-- C3 (amended): every operation that checks the deal first — `advance_stage`,
`pass_deal`, `add_due_diligence`, `score_deal`, `get_deal_details` — fails with the
not-found error on a nonexistent deal_id; `log_interaction` does not check and instead
surfaces the storage layer's foreign-key violation, not the not-found error. -/
theorem nonexistent_deal_errors (st : DBState) (deal_id : Nat)
    (h : findDeal st deal_id = none) (f n : Nat) (ns : DealStage)
    (cb r : String) (cat : DDCategory) (fnd : List String)
    (rf : Option (List String)) (rat : Int) (rev nts reason pb ty de : String)
    (pa : Option (List String)) (da : Option String) :
    advance_stage st f n deal_id ns cb r = Except.error (DealError.notFound deal_id) ∧
    pass_deal st f n deal_id reason pb = Except.error (DealError.notFound deal_id) ∧
    add_due_diligence st f n deal_id cat fnd rf rat rev nts =
      Except.error (DealError.notFound deal_id) ∧
    score_deal st n deal_id = Except.error (DealError.notFound deal_id) ∧
    get_deal_details st deal_id = Except.error (DealError.notFound deal_id) ∧
    log_interaction st f n deal_id ty de pa da = Except.error DealError.fkViolation := by
  refine ⟨?_, ?_, ?_, ?_, ?_, ?_⟩
  · rw [advance_stage, h]
  · rw [pass_deal, h]
  · rw [add_due_diligence, h]
  · rw [score_deal, h]
  · rw [get_deal_details, h]
  · rw [log_interaction, h]
    rfl

/-- C3 witness: the amended claim at the empty database and deal_id 42. -/
theorem nonexistent_deal_errors_witness :
    advance_stage initState 1 0 42 DealStage.closing "cb" "r" =
      Except.error (DealError.notFound 42) ∧
    pass_deal initState 1 0 42 "reason" "pb" = Except.error (DealError.notFound 42) ∧
    add_due_diligence initState 1 0 42 DDCategory.legal [] none 3 "rev" "" =
      Except.error (DealError.notFound 42) ∧
    score_deal initState 0 42 = Except.error (DealError.notFound 42) ∧
    get_deal_details initState 42 = Except.error (DealError.notFound 42) ∧
    log_interaction initState 1 0 42 "call" "de" none none =
      Except.error DealError.fkViolation :=
  nonexistent_deal_errors initState 42 rfl 1 0 DealStage.closing "cb" "r"
    DDCategory.legal [] none 3 "rev" "" "reason" "pb" "call" "de" none none

/-- C10: in `add_due_diligence` the deal-existence check precedes the rating-range
check: when the deal_id does not exist and the rating is also outside [1,5], the
operation raises the not-found error, not the rating validation error, and writes
nothing. -/
theorem add_dd_check_order (st : DBState) (f n deal_id : Nat) (cat : DDCategory)
    (fnd : List String) (rf : Option (List String)) (rat : Int) (rev nts : String)
    (h : findDeal st deal_id = none) (_hrat : ¬(1 ≤ rat ∧ rat ≤ 5)) :
    add_due_diligence st f n deal_id cat fnd rf rat rev nts =
      Except.error (DealError.notFound deal_id) := by
  rw [add_due_diligence, h]

/-- C10 witness: the empty database with deal_id 42 and the out-of-range rating 99. -/
theorem add_dd_check_order_witness :
    add_due_diligence initState 1 0 42 DDCategory.legal [] none 99 "rev" "" =
      Except.error (DealError.notFound 42) :=
  add_dd_check_order initState 1 0 42 DDCategory.legal [] none 99 "rev" "" rfl
    (by decide)

/-- C8: on an existing deal, `add_due_diligence` with a rating outside [1,5] fails
with the rating ValidationError and writes nothing (errors return no state); with a
rating in [1,5] it succeeds, appends exactly one new report whose status is forced to
`complete` and whose rating is the given one, and returns that report. -/
theorem add_dd_rating (st : DBState) (f n deal_id : Nat) (d : Deal) (cat : DDCategory)
    (fnd : List String) (rf : Option (List String)) (rat : Int) (rev nts : String)
    (hfd : findDeal st deal_id = some d) :
    (¬(1 ≤ rat ∧ rat ≤ 5) →
      add_due_diligence st f n deal_id cat fnd rf rat rev nts =
        Except.error (DealError.validation "Rating must be between 1 and 5")) ∧
    (1 ≤ rat → rat ≤ 5 →
      add_due_diligence st f n deal_id cat fnd rf rat rev nts =
        Except.ok (mkDD f n deal_id cat fnd rf rat rev nts,
          { st with due_diligence :=
              st.due_diligence ++ [mkDD f n deal_id cat fnd rf rat rev nts] }) ∧
      (mkDD f n deal_id cat fnd rf rat rev nts).status = DDStatus.complete ∧
      (mkDD f n deal_id cat fnd rf rat rev nts).rating = rat) := by
  constructor
  · intro hbad
    rw [add_due_diligence, hfd, if_neg hbad]
  · intro h1 h5
    refine ⟨?_, rfl, rfl⟩
    rw [add_due_diligence, hfd, if_pos ⟨h1, h5⟩]

/-- C8 witness: deal 1 of `stA` with the out-of-range rating 99 and the valid
rating 4. -/
theorem add_dd_rating_witness :
    (add_due_diligence stA 2 1 1 DDCategory.technical ["f"] none 99 "rev" "" =
      Except.error (DealError.validation "Rating must be between 1 and 5")) ∧
    (add_due_diligence stA 2 1 1 DDCategory.technical ["f"] none 4 "rev" "" =
      Except.ok (mkDD 2 1 1 DDCategory.technical ["f"] none 4 "rev" "",
        { stA with due_diligence :=
            stA.due_diligence ++ [mkDD 2 1 1 DDCategory.technical ["f"] none 4 "rev" ""] }) ∧
      (mkDD 2 1 1 DDCategory.technical ["f"] none 4 "rev" "").status = DDStatus.complete ∧
      (mkDD 2 1 1 DDCategory.technical ["f"] none 4 "rev" "").rating = 4) :=
  ⟨(add_dd_rating stA 2 1 1 dealA DDCategory.technical ["f"] none 99 "rev" "" rfl).1
      (by decide),
   (add_dd_rating stA 2 1 1 dealA DDCategory.technical ["f"] none 4 "rev" "" rfl).2
      (by decide) (by decide)⟩

/-- C6: on an existing deal, `advance_stage` records the current stage as old_stage,
sets the stage to the requested `new_stage` and `updated_at` to now, and appends
exactly one StageChange whose old_stage and new_stage match the call; `new_stage` is
universally quantified with no relation to the old stage, so moving backward or
skipping stages succeeds too. -/
theorem advance_stage_spec (st : DBState) (f n deal_id : Nat) (d : Deal)
    (ns : DealStage) (cb r : String) (hfd : findDeal st deal_id = some d) :
    ∃ st', advance_stage st f n deal_id ns cb r = Except.ok (true, st') ∧
      st'.stage_changes = st.stage_changes ++
        [{ change_id := f, deal_id := deal_id, old_stage := d.stage, new_stage := ns,
           changed_by := cb, reason := r, changed_at := n }] ∧
      findDeal st' deal_id = some { d with stage := ns, updated_at := n } ∧
      st'.due_diligence = st.due_diligence ∧ st'.interactions = st.interactions := by
  rw [advance_stage, hfd]
  exact ⟨_, rfl, rfl,
    find?_map_update st.deals deal_id
      (fun x => { x with stage := ns, updated_at := n }) (fun x => rfl) d hfd,
    rfl, rfl⟩

/-- C6 witness: the backward transition portfolio → awareness on deal 4 of `stP`. -/
theorem advance_stage_witness :
    ∃ st', advance_stage stP 9 3 4 DealStage.awareness "partner" "revisit" =
        Except.ok (true, st') ∧
      st'.stage_changes = stP.stage_changes ++
        [{ change_id := 9, deal_id := 4, old_stage := dealP.stage,
           new_stage := DealStage.awareness, changed_by := "partner",
           reason := "revisit", changed_at := 3 }] ∧
      findDeal st' 4 = some { dealP with stage := DealStage.awareness, updated_at := 3 } ∧
      st'.due_diligence = stP.due_diligence ∧ st'.interactions = stP.interactions :=
  advance_stage_spec stP 9 3 4 dealP DealStage.awareness "partner" "revisit" rfl

/-- C7: on an existing deal, `pass_deal` sets the stage to `passed` and `updated_at`
to now, appends `"\n[PASSED] " ++ reason` to the existing notes (so the notes
afterwards are some prefix followed by `"[PASSED] "` and the reason), and appends
exactly one StageChange with new_stage = passed; the current stage is unrestricted, so
re-passing an already-passed deal succeeds and records another event and note line. -/
theorem pass_deal_spec (st : DBState) (f n deal_id : Nat) (d : Deal)
    (reason pb : String) (hfd : findDeal st deal_id = some d) :
    ∃ st', pass_deal st f n deal_id reason pb = Except.ok (true, st') ∧
      st'.stage_changes = st.stage_changes ++
        [{ change_id := f, deal_id := deal_id, old_stage := d.stage,
           new_stage := DealStage.passed, changed_by := pb, reason := reason,
           changed_at := n }] ∧
      findDeal st' deal_id =
        some { d with stage := DealStage.passed, updated_at := n,
                      notes := d.notes ++ "\n[PASSED] " ++ reason } ∧
      d.notes ++ "\n[PASSED] " ++ reason =
        (d.notes ++ "\n") ++ ("[PASSED] " ++ reason) ∧
      st'.due_diligence = st.due_diligence := by
  rw [pass_deal, hfd]
  refine ⟨_, rfl, rfl,
    find?_map_update st.deals deal_id
      (fun x => { x with stage := DealStage.passed, updated_at := n,
                         notes := x.notes ++ "\n[PASSED] " ++ reason })
      (fun x => rfl) d hfd,
    ?_, rfl⟩
  rw [String.append_assoc, String.append_assoc]
  rfl

/-- C7 witness: re-passing the already-passed deal 6 of `stPassed` with reason
"too expensive" by "partner". -/
theorem pass_deal_witness :
    ∃ st', pass_deal stPassed 8 9 6 "too expensive" "partner" = Except.ok (true, st') ∧
      st'.stage_changes = stPassed.stage_changes ++
        [{ change_id := 8, deal_id := 6, old_stage := dealPassed.stage,
           new_stage := DealStage.passed, changed_by := "partner",
           reason := "too expensive", changed_at := 9 }] ∧
      findDeal st' 6 =
        some { dealPassed with stage := DealStage.passed, updated_at := 9,
                               notes := dealPassed.notes ++ "\n[PASSED] " ++ "too expensive" } ∧
      dealPassed.notes ++ "\n[PASSED] " ++ "too expensive" =
        (dealPassed.notes ++ "\n") ++ ("[PASSED] " ++ "too expensive") ∧
      st'.due_diligence = stPassed.due_diligence :=
  pass_deal_spec stPassed 8 9 6 dealPassed "too expensive" "partner" rfl

/-- C4: on an existing deal with at least one report, `score_deal` returns
`clamp(base_score - penalty + coverage_bonus, 0, 100)` where the average rating
divides the sum of positive ratings by the count of all reports, base_score is
`floor(avg / 5 * 80)`, penalty is `min(red_flag_count * 5, 30)` and coverage_bonus is
`min(distinct_categories * 4, 20)`; Scenario B (ratings 4 and 5, no red flags,
categories technical and market) yields 80, persisted onto the deal. -/
theorem score_deal_formula :
    (∀ st : DBState, ∀ now deal_id : Nat, ∀ d : Deal,
      findDeal st deal_id = some d → ddFor st deal_id ≠ [] →
      computeScore (ddFor st deal_id) =
        max 0 (min 100
          (⌊(totalRating (ddFor st deal_id) : ℚ) / ((ddFor st deal_id).length : ℚ) / 5 * 80⌋
            - min (totalRedFlags (ddFor st deal_id) * 5) 30
            + min (categoriesCovered (ddFor st deal_id) * 4) 20)) ∧
      ∃ st', score_deal st now deal_id =
        Except.ok (computeScore (ddFor st deal_id), st')) ∧
    score_deal stB 9 1 = Except.ok (80, stB80) := by
  constructor
  · intro st now deal_id d hfd hne
    refine ⟨rfl, ?_⟩
    rw [score_deal, hfd, if_neg (by simp [List.isEmpty_iff, hne])]
    exact ⟨_, rfl⟩
  · have ht : totalRating [ddTech, ddMarket] = 9 := by decide
    have hrf : totalRedFlags [ddTech, ddMarket] = 0 := by decide
    have hcat : categoriesCovered [ddTech, ddMarket] = 2 := by decide
    have hlen : ([ddTech, ddMarket] : List DueDiligence).length = 2 := rfl
    have hdd : ddFor stB 1 = [ddTech, ddMarket] := rfl
    have hcs : computeScore (ddFor stB 1) = 80 := by
      rw [hdd, computeScore, ht, hrf, hcat, hlen]
      norm_num
    rw [score_deal, show findDeal stB 1 = some dealA from rfl,
      if_neg (by decide), hcs]
    rfl

/-- C4 witness: the general formula instantiated at the Scenario B database `stB`. -/
theorem score_deal_formula_witness :
    computeScore (ddFor stB 1) =
      max 0 (min 100
        (⌊(totalRating (ddFor stB 1) : ℚ) / ((ddFor stB 1).length : ℚ) / 5 * 80⌋
          - min (totalRedFlags (ddFor stB 1) * 5) 30
          + min (categoriesCovered (ddFor stB 1) * 4) 20)) ∧
    ∃ st', score_deal stB 9 1 = Except.ok (computeScore (ddFor stB 1), st') :=
  score_deal_formula.1 stB 9 1 dealA rfl (by decide)

theorem score_update_cases (c : Prop) [Decidable c] (a b : Deal)
    (hsa : 0 ≤ a.score ∧ a.score ≤ 100) (hsb : 0 ≤ b.score ∧ b.score ≤ 100) :
    0 ≤ (if c then a else b).score ∧ (if c then a else b).score ≤ 100 := by
  by_cases hc : c
  · rw [if_pos hc]
    exact hsa
  · rw [if_neg hc]
    exact hsb

theorem runOp_score_inv (st : DBState) (op : Op)
    (h : ∀ d ∈ st.deals, 0 ≤ d.score ∧ d.score ≤ 100) :
    ∀ d ∈ (runOp st op).deals, 0 ≤ d.score ∧ d.score ≤ 100 := by
  cases op with
  | addDeal f n c s ra v li asg nts fo ce w =>
    intro d hd
    simp only [runOp, add_deal, afterOp] at hd
    rcases List.mem_append.1 hd with h1 | h1
    · exact h d h1
    · rw [List.mem_singleton] at h1
      subst h1
      exact ⟨le_refl 0, show (0 : Int) ≤ 100 by decide⟩
  | advanceStage f n id ns cb r =>
    intro d hd
    simp only [runOp] at hd
    cases hfd : findDeal st id with
    | none =>
      simp only [advance_stage, hfd, afterOp] at hd
      exact h d hd
    | some row =>
      simp only [advance_stage, hfd, afterOp] at hd
      rcases List.mem_map.1 hd with ⟨x, hx, hgx⟩
      rw [← hgx]
      exact score_update_cases _ _ _ (h x hx) (h x hx)
  | addDD f n id cat fnd rf rat rev nts =>
    intro d hd
    simp only [runOp] at hd
    cases hfd : findDeal st id with
    | none =>
      simp only [add_due_diligence, hfd, afterOp] at hd
      exact h d hd
    | some row =>
      by_cases hr : 1 ≤ rat ∧ rat ≤ 5
      · simp only [add_due_diligence, hfd, if_pos hr, afterOp] at hd
        exact h d hd
      · simp only [add_due_diligence, hfd, if_neg hr, afterOp] at hd
        exact h d hd
  | scoreDeal n id =>
    intro d hd
    simp only [runOp] at hd
    cases hfd : findDeal st id with
    | none =>
      simp only [score_deal, hfd, afterOp] at hd
      exact h d hd
    | some row =>
      by_cases he : (ddFor st id).isEmpty = true
      · simp only [score_deal, hfd, if_pos he, afterOp] at hd
        exact h d hd
      · simp only [score_deal, hfd, if_neg he, afterOp] at hd
        rcases List.mem_map.1 hd with ⟨x, hx, hgx⟩
        rw [← hgx]
        exact score_update_cases _ _ _
          ⟨computeScore_nonneg (ddFor st id), computeScore_le (ddFor st id)⟩ (h x hx)
  | passDeal f n id r pb =>
    intro d hd
    simp only [runOp] at hd
    cases hfd : findDeal st id with
    | none =>
      simp only [pass_deal, hfd, afterOp] at hd
      exact h d hd
    | some row =>
      simp only [pass_deal, hfd, afterOp] at hd
      rcases List.mem_map.1 hd with ⟨x, hx, hgx⟩
      rw [← hgx]
      exact score_update_cases _ _ _ (h x hx) (h x hx)
  | logInteraction f n id ty de pa da =>
    intro d hd
    simp only [runOp] at hd
    by_cases hs : (findDeal st id).isSome = true
    · simp only [log_interaction, if_pos hs, afterOp] at hd
      exact h d hd
    · simp only [log_interaction, if_neg hs, afterOp] at hd
      exact h d hd

theorem foldl_score_inv (ops : List Op) :
    ∀ st : DBState, (∀ d ∈ st.deals, 0 ≤ d.score ∧ d.score ≤ 100) →
      ∀ d ∈ (ops.foldl runOp st).deals, 0 ≤ d.score ∧ d.score ≤ 100 := by
  induction ops with
  | nil =>
    intro st h
    exact h
  | cons o t ih =>
    intro st h
    exact ih (runOp st o) (runOp_score_inv st o h)

/-- C5: in every database reachable from the empty one by any sequence of core
operation calls, every persisted deal score is an integer in [0,100]: creation writes
0, `score_deal` only ever writes the clamped value, and no other operation touches the
score field. -/
theorem score_in_range (ops : List Op) :
    ∀ d ∈ (reach ops).deals, 0 ≤ d.score ∧ d.score ≤ 100 :=
  foldl_score_inv ops initState (fun d hd => absurd hd (List.not_mem_nil d))

/-- C5 witness: the invariant at the one-operation trace that creates `dealA`. -/
theorem score_in_range_witness :
    dealA ∈ (reach [opA]).deals ∧ 0 ≤ dealA.score ∧ dealA.score ≤ 100 :=
  ⟨List.mem_singleton.2 rfl,
   score_in_range [opA] dealA (List.mem_singleton.2 rfl)⟩
